import Mathlib

/-!
Shallow embedding of the Unreal Pixel Streaming RTP bridge (src/main.go).

The embedding covers the signaling control loop (startControlLoop and its
handlers), the pending-candidate handling in the OnICECandidate callback,
the RTP payload-type rewrite in the per-track relay loop, the RTCP
feedback ticker, and an interleaving model of the append/drain race on
the shared pending-candidate slice.

External collaborators (Pion WebRTC, encoding/json, gorilla/websocket,
UDP sockets) are modelled by oracles recording each call's outcome, and
the RTP wire codec (pion/rtp Unmarshal / MarshalTo, called by the relay
loop) is embedded at the byte level for the fixed header, CSRC words and
the header-extension block carried as the raw bytes it occupies.
Candidates and session descriptions are opaque to the source, so they are
represented by natural-number identifiers.
-/

namespace Bridge

/-- Externally visible operations performed while a signaling message is
handled: successful session-description applications, successful remote
candidate additions, and outbound websocket messages. -/
inductive Effect where
  | applyLocal (sdp : Nat)
  | applyRemote (sdp : Nat)
  | addRemoteCandidate (c : Nat)
  | sendCandidateMsg (c : Nat)
  | sendAnswerMsg (sdp : Nat)
  deriving DecidableEq, Repr

/-- Discriminant of an inbound signaling message, the value of its JSON
"type" field as switched on at main.go:211.  `other` is any string not
specifically handled (the switch's default arm). -/
inductive MsgType where
  | playerCount
  | config
  | answer
  | iceCandidate
  | offer
  | other
  deriving DecidableEq, Repr

/-- Decoding outcomes for one inbound websocket text message.
`outerOk` is whether json.Unmarshal into the string-to-RawMessage map
succeeds (main.go:194); `typeField` is the decoded "type" field (none
when that inner unmarshal fails, main.go:203); `sdpField` is the outcome
of unmarshalling the whole message as a SessionDescription (used by the
"answer" and "offer" arms); `candField` is the outcome of unmarshalling
the "candidate" field as an ICECandidateInit. -/
structure ControlMsg where
  outerOk : Bool
  typeField : Option MsgType
  sdpField : Option Nat
  candField : Option Nat
  deriving DecidableEq, Repr

/-- Outcomes of the Pion peer-connection calls a single message handling
can make.  `createAnswerRes` is `some a` when CreateAnswer returns answer
`a` with nil error; `answerSetLocalOk` is the outcome of the
SetLocalDescription call inside createAnswer (main.go:380). -/
structure PCOracle where
  setLocalOk : Bool
  setRemoteOk : Bool
  addCandidateOk : Bool
  createAnswerRes : Option Nat
  answerSetLocalOk : Bool
  deriving DecidableEq, Repr

/-- main.go:122-152 handleRemoteAnswer.  `sdpParsed` is the
json.Unmarshal outcome for the SessionDescription; `localOk` / `remoteOk`
are the SetLocalDescription / SetRemoteDescription outcomes.  Each failed
step logs and returns.  On full success both descriptions are applied
(local first, remote second) and every pending candidate is sent over the
websocket in slice order.  The pending slice itself is only read — the
source never truncates or clears it — so it is returned unchanged. -/
def handleRemoteAnswer (sdpParsed : Option Nat) (localOk remoteOk : Bool)
    (pending : List Nat) : List Effect × List Nat :=
  match sdpParsed with
  | none => ([], pending)
  | some sdp =>
      if localOk then
        if remoteOk then
          (Effect.applyLocal sdp :: Effect.applyRemote sdp ::
             pending.map Effect.sendCandidateMsg, pending)
        else ([Effect.applyLocal sdp], pending)
      else ([], pending)

/-- main.go:157-172 handleRemoteIceCandidate: unmarshal the candidate
(log and return on failure), then AddICECandidate (log and return on
failure). -/
def handleRemoteIceCandidate (candParsed : Option Nat) (addOk : Bool) :
    List Effect :=
  match candParsed with
  | none => []
  | some c => if addOk then [Effect.addRemoteCandidate c] else []

/-- main.go:373-391 createAnswer.  A CreateAnswer failure returns an
error (no answer).  A SetLocalDescription failure is only logged: the
`err` variable is immediately overwritten by the json.Marshal call
(main.go:384), so the function still returns the answer string with a nil
error.  json.Marshal of a SessionDescription cannot fail and is modelled
as always succeeding. -/
def createAnswer (createRes : Option Nat) (setLocalOk : Bool) :
    List Effect × Option Nat :=
  match createRes with
  | none => ([], none)
  | some a =>
      if setLocalOk then ([Effect.applyLocal a], some a)
      else ([], some a)

/-- main.go:393-404 sendAnswer: on a createAnswer error only log;
otherwise write the answer message over the websocket. -/
def sendAnswer (createRes : Option Nat) (setLocalOk : Bool) : List Effect :=
  match createAnswer createRes setLocalOk with
  | (es, none) => es
  | (es, some a) => es ++ [Effect.sendAnswerMsg a]

/-- Whether the body of startControlLoop's for-loop falls through to the
next iteration (`next`, covering `continue` and falling out of the
switch) or executes `return`, which exits startControlLoop itself
(`exitLoop`). -/
inductive LoopOutcome where
  | next
  | exitLoop
  deriving DecidableEq, Repr

/-- main.go:175-243, the body of startControlLoop for one successfully
read websocket message: JSON decoding failures of the outer map or of the
"type" field log and continue; the switch dispatches on the discriminant.
Note the "offer" arm's malformed-SDP branch executes `return`
(main.go:230), exiting the whole loop, while every other failure path
continues.  Returns the effects performed, the pending slice afterwards,
and whether the loop keeps running. -/
def controlStep (m : ControlMsg) (o : PCOracle) (pending : List Nat) :
    List Effect × List Nat × LoopOutcome :=
  if m.outerOk then
    match m.typeField with
    | none => ([], pending, LoopOutcome.next)
    | some MsgType.playerCount => ([], pending, LoopOutcome.next)
    | some MsgType.config => ([], pending, LoopOutcome.next)
    | some MsgType.answer =>
        let r := handleRemoteAnswer m.sdpField o.setLocalOk o.setRemoteOk pending
        (r.1, r.2, LoopOutcome.next)
    | some MsgType.iceCandidate =>
        (handleRemoteIceCandidate m.candField o.addCandidateOk, pending,
          LoopOutcome.next)
    | some MsgType.offer =>
        match m.sdpField with
        | none => ([], pending, LoopOutcome.exitLoop)
        | some sdp =>
            ((if o.setRemoteOk then [Effect.applyRemote sdp] else []) ++
               sendAnswer o.createAnswerRes o.answerSetLocalOk,
             pending, LoopOutcome.next)
    | some MsgType.other => ([], pending, LoopOutcome.next)
  else ([], pending, LoopOutcome.next)

/-- The signaling receive loop over a finite message sequence (each with
the oracle for its handling): processes messages in arrival order,
stopping early when an iteration exits the loop. -/
def runControl : List (ControlMsg × PCOracle) → List Nat → List Effect × List Nat
  | [], pending => ([], pending)
  | (m, o) :: rest, pending =>
      let r := controlStep m o pending
      match r.2.2 with
      | LoopOutcome.exitLoop => (r.1, r.2.1)
      | LoopOutcome.next =>
          let r2 := runControl rest r.2.1
          (r.1 ++ r2.1, r2.2)

/-- main.go:430-444, the OnICECandidate callback: a nil candidate is
ignored; otherwise, when RemoteDescription() is nil the candidate is
appended to pendingCandidates (and nothing is sent), and when it is
non-nil the candidate is sent immediately (and the buffer is untouched).
Returns the pending slice afterwards and the outbound messages. -/
def onICECandidate (remoteDescPresent : Bool) (cand : Option Nat)
    (pending : List Nat) : List Nat × List Effect :=
  match cand with
  | none => (pending, [])
  | some c =>
      if remoteDescPresent then (pending, [Effect.sendCandidateMsg c])
      else (pending ++ [c], [])

/-- Recognizer for outbound candidate transmissions among effects. -/
def isSendCandidate : Effect → Bool
  | Effect.sendCandidateMsg _ => true
  | _ => false

/-- Recognizer for outbound websocket messages among effects. -/
def isOutboundMsg : Effect → Bool
  | Effect.sendCandidateMsg _ => true
  | Effect.sendAnswerMsg _ => true
  | _ => false

/-- Classification of a UDP write error in the relay loop: main.go:361
retries only when the error is a *net.OpError whose inner error prints
exactly "write: connection refused". -/
inductive WriteRes where
  | ok
  | connRefused
  | otherErr
  deriving DecidableEq, Repr

/-- Outcomes of the external calls made by one iteration of the per-kind
relay loop (main.go:335-366): track.Read, rtp Unmarshal, MarshalTo, and
the UDP write. -/
structure RelayInput where
  readOk : Bool
  unmarshalOk : Bool
  marshalOk : Bool
  writeRes : WriteRes
  deriving DecidableEq, Repr

/-- Whether a relay-loop iteration proceeds to the next frame or panics. -/
inductive StepRes where
  | next
  | panicked
  deriving DecidableEq, Repr

/-- One iteration of the per-kind relay loop (main.go:335-366): a read
failure, an Unmarshal failure, or a MarshalTo failure panics; a write
failure continues only when it is "write: connection refused", and panics
otherwise. -/
def relayStep (r : RelayInput) : StepRes :=
  if !r.readOk then StepRes.panicked
  else if !r.unmarshalOk then StepRes.panicked
  else if !r.marshalOk then StepRes.panicked
  else match r.writeRes with
    | WriteRes.ok => StepRes.next
    | WriteRes.connRefused => StepRes.next
    | WriteRes.otherErr => StepRes.panicked

/-- Go run-time semantics for the relay loops: each OnTrack callback body
runs on its own goroutine with no recover anywhere in the program, and an
unrecovered panic in any goroutine terminates the entire process.  So
after one kind's relay loop takes a step, the other kind's relay loop is
still running exactly when that step did not panic. -/
def otherKindStillRunning : StepRes → Bool
  | StepRes.next => true
  | StepRes.panicked => false

/-- Configuration consumed by the RTCP feedback goroutine: the
RTCPIntervalMs, RTCPSendPLI, RTCPSendREMB and REMB flags
(main.go:46-55). -/
structure RTCPConfig where
  intervalMs : Nat
  sendPLI : Bool
  sendREMB : Bool
  remb : Nat
  deriving DecidableEq, Repr

/-- RTCP feedback messages the emitter can send toward the publisher. -/
inductive Feedback where
  | pli (ssrc : Nat)
  | remb (bitrate : Nat) (ssrc : Nat)
  deriving DecidableEq, Repr

/-- main.go:314: `ticker := time.NewTicker(time.Millisecond * 2000)`.
The ticker period is the literal 2000 ms; the RTCPIntervalMs flag
(main.go:46) is declared but never read by the feedback goroutine (or
anywhere else), so the configuration does not reach the ticker. -/
def tickerPeriodMs (_cfg : RTCPConfig) : Nat := 2000

/-- main.go:315-330, the messages sent on one ticker tick: a
PictureLossIndication for the track's SSRC when RTCPSendPLI is set, then
a ReceiverEstimatedMaximumBitrate carrying the REMB flag value for the
same SSRC when RTCPSendREMB is set. -/
def rtcpPerTick (cfg : RTCPConfig) (ssrc : Nat) : List Feedback :=
  (if cfg.sendPLI then [Feedback.pli ssrc] else []) ++
    (if cfg.sendREMB then [Feedback.remb cfg.remb ssrc] else [])

/-- Shared state touched by both the OnICECandidate callback goroutine
and the signaling loop: whether the remote description has been applied,
the pendingCandidates slice, the candidates sent so far, and, per
in-flight callback, the remote-description value it read (the callback's
`desc := peerConnection.RemoteDescription()` local). -/
structure RaceState where
  remoteSet : Bool
  pending : List Nat
  sent : List Nat
  reads : List (Nat × Bool)
  deriving DecidableEq, Repr

/-- Atomic steps in the interleaving of the candidate-discovery callback
with the signaling loop's answer handling.  The callback body
(main.go:437-443) is two separate actions: `checkRemote c` reads
RemoteDescription() into a local, and `act c` then either appends `c` to
pendingCandidates (remote was absent) or sends it (remote was present).
`answer` is the signaling loop applying a successful remote answer:
RemoteDescription becomes set and every currently pending candidate is
sent (main.go:139-151; the slice is not cleared).  The source has no
mutex or other synchronization around any of this. -/
inductive RaceAction where
  | checkRemote (cid : Nat)
  | act (cid : Nat)
  | answer
  deriving DecidableEq, Repr

/-- Effect of one atomic action on the shared state. -/
def raceStep (s : RaceState) : RaceAction → RaceState
  | RaceAction.checkRemote c => { s with reads := (c, s.remoteSet) :: s.reads }
  | RaceAction.act c =>
      match s.reads.lookup c with
      | none => s
      | some remoteWasSet =>
          if remoteWasSet then { s with sent := s.sent ++ [c] }
          else { s with pending := s.pending ++ [c] }
  | RaceAction.answer =>
      { s with remoteSet := true, sent := s.sent ++ s.pending }

/-- Run a schedule of interleaved actions from a state. -/
def raceRun (s : RaceState) (sched : List RaceAction) : RaceState :=
  sched.foldl raceStep s

/-- State at process start: no remote description, empty pending slice,
nothing sent. -/
def raceInit : RaceState := ⟨false, [], [], []⟩

/-- A discovery callback that runs to completion with no interleaved
action between its remote-description check and its append/send. -/
def atomicDiscover (c : Nat) : List RaceAction :=
  [RaceAction.checkRemote c, RaceAction.act c]

/-- A sequence of discovery callbacks, each running atomically. -/
def discoverAll : List Nat → List RaceAction
  | [] => []
  | c :: cs => atomicDiscover c ++ discoverAll cs

/-- An RTP packet as pion/rtp parses it.  `payloadType` is the uint8
struct field (the parser fills it with the low 7 bits of byte 1; the
relay loop overwrites it with the destination's configured uint8).  The
sequence number, timestamp and SSRC are parsed and re-serialized
byte-identically, so they are carried as the raw bytes 2..11
(`seqTsSsrc`), and likewise the CSRC words (`csrcBytes`, 4 bytes per
CSRC) and the header-extension block: profile bytes, the 16-bit length
field in words, and the `4 * extLenWords` bytes it covers (`extBytes`,
opaque here; pion re-serializes the extension elements it parsed from
them, which reproduces these bytes for the packed extension layouts the
browser emits).  `payload` is everything after the header, padding bytes
included. -/
structure RTPPacket where
  version : Nat
  padding : Bool
  extension : Bool
  marker : Bool
  payloadType : Nat
  seqTsSsrc : List Nat
  csrcBytes : List Nat
  extProfile : List Nat
  extLenWords : Nat
  extBytes : List Nat
  payload : List Nat
  deriving DecidableEq, Repr

/-- pion/rtp Header/Packet Unmarshal on a byte sequence: byte 0 holds
version (bits 7-6), padding (bit 5), extension (bit 4) and the CSRC count
(bits 3-0); byte 1 holds marker (bit 7) and the payload type (bits 6-0).
The packet is rejected (error) when shorter than the 12-byte fixed header
plus the CSRC words, or when the declared extension block does not fit. -/
def rtpUnmarshal (bytes : List Nat) : Option RTPPacket :=
  match bytes with
  | b0 :: b1 :: rest =>
      if 10 + 4 * (b0 % 16) ≤ rest.length then
        if (b0 / 16) % 2 = 1 then
          match (rest.drop 10).drop (4 * (b0 % 16)) with
          | p0 :: p1 :: l0 :: l1 :: rem2 =>
              if 4 * (256 * l0 + l1) ≤ rem2.length then
                some { version := b0 / 64
                       padding := (b0 / 32) % 2 == 1
                       extension := (b0 / 16) % 2 == 1
                       marker := b1 / 128 == 1
                       payloadType := b1 % 128
                       seqTsSsrc := rest.take 10
                       csrcBytes := (rest.drop 10).take (4 * (b0 % 16))
                       extProfile := [p0, p1]
                       extLenWords := 256 * l0 + l1
                       extBytes := rem2.take (4 * (256 * l0 + l1))
                       payload := rem2.drop (4 * (256 * l0 + l1)) }
              else none
          | _ => none
        else
          some { version := b0 / 64
                 padding := (b0 / 32) % 2 == 1
                 extension := (b0 / 16) % 2 == 1
                 marker := b1 / 128 == 1
                 payloadType := b1 % 128
                 seqTsSsrc := rest.take 10
                 csrcBytes := (rest.drop 10).take (4 * (b0 % 16))
                 extProfile := []
                 extLenWords := 0
                 extBytes := []
                 payload := (rest.drop 10).drop (4 * (b0 % 16)) }
      else none
  | _ => none

/-- pion/rtp Header/Packet MarshalTo: byte 0 is rebuilt from the parsed
fields (the CSRC count from the CSRC list length), and byte 1 is the
uint8 PayloadType with the marker bit OR-ed on top — the stored byte is
not masked to 7 bits, so a PayloadType of 128 or more spills into the
marker bit.  The remaining header bytes and the payload are emitted
verbatim. -/
def rtpMarshal (p : RTPPacket) : List Nat :=
  (64 * (p.version % 4) + (if p.padding then 32 else 0)
      + (if p.extension then 16 else 0) + p.csrcBytes.length / 4) ::
    Nat.lor (p.payloadType % 256) (if p.marker then 128 else 0) ::
    (p.seqTsSsrc ++ p.csrcBytes ++
      (if p.extension then
        p.extProfile ++ [p.extLenWords / 256, p.extLenWords % 256] ++ p.extBytes
       else []) ++ p.payload)

/-- main.go:343-354, the rewrite applied to each inbound frame: Unmarshal
it, overwrite PayloadType with the destination udpConn's configured uint8
value, MarshalTo the reusable buffer, and write those bytes.  An
Unmarshal (or MarshalTo) failure panics in the source; that is the `none`
case here. -/
def forwardFrame (pt8 : Nat) (frame : List Nat) : Option (List Nat) :=
  match rtpUnmarshal frame with
  | none => none
  | some p => some (rtpMarshal { p with payloadType := pt8 })

/-- main.go:285/291: `uint8(*RTPVideoPayloadType)` — the flag, a Go uint,
is narrowed to uint8 when the destination udpConn is built. -/
def udpConnPayloadType (flagValue : Nat) : Nat := flagValue % 256

/-- The RTP payload-type field of a wire frame: the low 7 bits of
byte 1. -/
def ptField (frame : List Nat) : Option Nat := (frame.get? 1).map (· % 128)

/-- The RTP marker bit of a wire frame: bit 7 of byte 1. -/
def markerBit (frame : List Nat) : Option Nat := (frame.get? 1).map (· / 128)

end Bridge

namespace Bridge

lemma bit_if_mul (k x : Nat) : (if (x % 2 == 1) = true then k else 0) = k * (x % 2) := by
  rcases Nat.mod_two_eq_zero_or_one x with h | h <;> simp [h]

set_option maxRecDepth 8192 in
lemma lor128_mod : ∀ y < 256, Nat.lor y 128 % 128 = y % 128 := by decide

/-- Round trip of the relay rewrite at byte level: when a frame
unmarshals, re-marshalling it with the PayloadType overwritten yields the
original bytes with only byte 1 replaced, the new byte being the stored
8-bit PayloadType OR-ed with the original marker bit. -/
theorem rtpMarshal_set (frame : List Nat) (p : RTPPacket) (pt8 : Nat)
    (hb : ∀ b ∈ frame, b < 256)
    (h : rtpUnmarshal frame = some p) :
    rtpMarshal { p with payloadType := pt8 } =
      frame.set 1 (Nat.lor (pt8 % 256) (if p.marker then 128 else 0)) := by
  match frame, hb with
  | [], hb => simp [rtpUnmarshal] at h
  | [b0], hb => simp [rtpUnmarshal] at h
  | b0 :: b1 :: rest, hb =>
    have hb0 : b0 < 256 := hb b0 (by simp)
    simp only [rtpUnmarshal] at h
    by_cases hlen : 10 + 4 * (b0 % 16) ≤ rest.length
    · rw [if_pos hlen] at h
      have hcsrc : ((rest.drop 10).take (4 * (b0 % 16))).length = 4 * (b0 % 16) := by
        rw [List.length_take, List.length_drop]
        omega
      have hb0eq : 64 * (b0 / 64 % 4) + 32 * (b0 / 32 % 2) + 16 * (b0 / 16 % 2)
          + 4 * (b0 % 16) / 4 = b0 := by omega
      by_cases hext : (b0 / 16) % 2 = 1
      · rw [if_pos hext] at h
        split at h
        · rename_i p0 p1 l0 l1 rem2 hdrop
          by_cases hL : 4 * (256 * l0 + l1) ≤ rem2.length
          · rw [if_pos hL] at h
            have hp := Option.some.inj h
            subst hp
            have hl1 : l1 < 256 := by
              refine hb l1 ?_
              have h1 : l1 ∈ (rest.drop 10).drop (4 * (b0 % 16)) := by rw [hdrop]; simp
              have h2 : l1 ∈ rest := List.mem_of_mem_drop (List.mem_of_mem_drop h1)
              exact List.mem_cons_of_mem _ (List.mem_cons_of_mem _ h2)
            have hdiv : (256 * l0 + l1) / 256 = l0 := by omega
            have hmod : (256 * l0 + l1) % 256 = l1 := by omega
            have hset : (b0 :: b1 :: rest).set 1
                (Nat.lor (pt8 % 256) (if ((b1 / 128 == 1) = true) then 128 else 0)) =
                b0 :: Nat.lor (pt8 % 256) (if ((b1 / 128 == 1) = true) then 128 else 0) :: rest := rfl
            simp only [rtpMarshal, hcsrc, hdiv, hmod]
            rw [bit_if_mul 32 (b0 / 32), bit_if_mul 16 (b0 / 16), hb0eq, hset,
              if_pos (show ((b0 / 16 % 2 == 1) = true) by simp [hext])]
            simp only [List.append_assoc, List.cons_append, List.nil_append,
              List.take_append_drop]
            rw [← hdrop, List.take_append_drop, List.take_append_drop]
          · rw [if_neg hL] at h
            exact absurd h (by simp)
        · exact absurd h (by simp)
      · rw [if_neg hext] at h
        have hp := Option.some.inj h
        subst hp
        have hset : (b0 :: b1 :: rest).set 1
            (Nat.lor (pt8 % 256) (if ((b1 / 128 == 1) = true) then 128 else 0)) =
            b0 :: Nat.lor (pt8 % 256) (if ((b1 / 128 == 1) = true) then 128 else 0) :: rest := rfl
        simp only [rtpMarshal, hcsrc]
        rw [bit_if_mul 32 (b0 / 32), bit_if_mul 16 (b0 / 16), hb0eq, hset,
          if_neg (show ¬((b0 / 16 % 2 == 1) = true) by simp [hext])]
        simp only [List.append_assoc, List.nil_append, List.take_append_drop]
    · rw [if_neg hlen] at h
      exact absurd h (by simp)

end Bridge

namespace Bridge

/-- C2 (amended): for every inbound frame the relay forwards, the
forwarded byte sequence has the same length as the received frame and
differs from it only at byte 1, which becomes the destination target's
configured 8-bit value OR-ed with the frame's original marker bit.  When
the configured byte is below 128 this sets exactly the 7-bit payload-type
field to the configured value; when it is 128 or more, the payload-type
field receives only its low 7 bits and the marker bit is forced on, so
the claim as stated holds only for configured bytes below 128. -/
theorem C2_forward_rewrites_only_byte1
    (frame : List Nat) (p : RTPPacket) (pt8 : Nat)
    (hb : ∀ b ∈ frame, b < 256) (h : rtpUnmarshal frame = some p) :
    forwardFrame pt8 frame =
      some (frame.set 1 (Nat.lor (pt8 % 256) (if p.marker then 128 else 0))) ∧
    (frame.set 1 (Nat.lor (pt8 % 256) (if p.marker then 128 else 0))).length
      = frame.length := by
  refine ⟨?_, by simp⟩
  simp only [forwardFrame, h]
  rw [rtpMarshal_set frame p pt8 hb h]

/-- Witness for C2 at a concrete 12-byte frame and the default video
payload type 111. -/
theorem C2_witness :
    forwardFrame 111 [128, 96, 0, 0, 0, 0, 0, 0, 0, 0, 0, 0] =
      some [128, 111, 0, 0, 0, 0, 0, 0, 0, 0, 0, 0] := by
  have h := C2_forward_rewrites_only_byte1 [128, 96, 0, 0, 0, 0, 0, 0, 0, 0, 0, 0]
      ⟨2, false, false, false, 96, [0, 0, 0, 0, 0, 0, 0, 0, 0, 0], [], [], 0, [], []⟩
      111 (by decide) rfl
  rw [h.1]
  rfl

/-- C2 counterexample: with configured payload-type byte 200 the
forwarded frame's payload-type field reads 72, not the configured 200,
and the marker bit differs between input (0) and output (1) — a change
outside the payload-type field.  This refutes the claim that the output
differs from the input only in the payload-type field, set to the
configured value. -/
theorem C2_counterexample :
    forwardFrame 200 [128, 96, 1, 2, 3, 4, 5, 6, 7, 8, 9, 10] =
      some [128, 200, 1, 2, 3, 4, 5, 6, 7, 8, 9, 10] ∧
    ptField [128, 200, 1, 2, 3, 4, 5, 6, 7, 8, 9, 10] = some 72 ∧
    markerBit [128, 96, 1, 2, 3, 4, 5, 6, 7, 8, 9, 10] = some 0 ∧
    markerBit [128, 200, 1, 2, 3, 4, 5, 6, 7, 8, 9, 10] = some 1 :=
  ⟨rfl, rfl, rfl, rfl⟩

/-- C10 (amended): the configured flag value is narrowed modulo 256
when stored in the target (the uint8 conversion), but the 7-bit wire
payload-type field of every forwarded frame reads the flag value reduced
modulo 128; bit 7 of the narrowed value, when set, spills into the marker
bit instead of the payload-type field. -/
theorem C10_pt_field_mod128
    (flagValue : Nat) (frame : List Nat) (p : RTPPacket) (out : List Nat)
    (hb : ∀ b ∈ frame, b < 256)
    (h : rtpUnmarshal frame = some p)
    (hout : forwardFrame (udpConnPayloadType flagValue) frame = some out) :
    ptField out = some (flagValue % 128) := by
  simp only [forwardFrame, h] at hout
  obtain rfl := Option.some.inj hout
  rw [rtpMarshal_set frame p (udpConnPayloadType flagValue) hb h]
  match frame, h with
  | [], h => simp [rtpUnmarshal] at h
  | [b0], h => simp [rtpUnmarshal] at h
  | b0 :: b1 :: rest, h =>
    rw [show ((b0 :: b1 :: rest).set 1 (Nat.lor (udpConnPayloadType flagValue % 256)
        (if p.marker then 128 else 0))) = b0 :: (Nat.lor (udpConnPayloadType flagValue % 256)
        (if p.marker then 128 else 0)) :: rest from rfl]
    show some (Nat.lor (udpConnPayloadType flagValue % 256)
        (if p.marker then 128 else 0) % 128) = some (flagValue % 128)
    congr 1
    have h256 : udpConnPayloadType flagValue % 256 = flagValue % 256 :=
      Nat.mod_mod_of_dvd flagValue dvd_rfl
    cases hmk : p.marker
    · have hz : Nat.lor (udpConnPayloadType flagValue % 256) 0 =
          udpConnPayloadType flagValue % 256 := Nat.or_zero _
      rw [if_neg Bool.false_ne_true, hz, h256]
      exact Nat.mod_mod_of_dvd flagValue (by norm_num)
    · rw [if_pos rfl, h256, lor128_mod (flagValue % 256) (Nat.mod_lt _ (by norm_num))]
      exact Nat.mod_mod_of_dvd flagValue (by norm_num)

/-- Witness for C10 with flag value 367: the forwarded frame's
payload-type field reads 367 mod 128 = 111. -/
theorem C10_witness :
    ptField [128, 239, 0, 0, 0, 0, 0, 0, 0, 0, 0, 0] = some (367 % 128) :=
  C10_pt_field_mod128 367 [128, 128, 0, 0, 0, 0, 0, 0, 0, 0, 0, 0]
      ⟨2, false, false, true, 0, [0, 0, 0, 0, 0, 0, 0, 0, 0, 0], [], [], 0, [], []⟩
      [128, 239, 0, 0, 0, 0, 0, 0, 0, 0, 0, 0] (by decide) rfl rfl

/-- C10 counterexample: for configured flag 200, the claim says the
payload-type field receives 200 mod 256 = 200, but the forwarded frame's
payload-type field reads 72 = 200 mod 128. -/
theorem C10_counterexample :
    forwardFrame (udpConnPayloadType 200) [128, 0, 7, 7, 7, 7, 7, 7, 7, 7, 7, 7, 42] =
      some [128, 200, 7, 7, 7, 7, 7, 7, 7, 7, 7, 7, 42] ∧
    ptField [128, 200, 7, 7, 7, 7, 7, 7, 7, 7, 7, 7, 42] = some 72 ∧
    (72 : Nat) ≠ 200 % 256 :=
  ⟨rfl, rfl, by decide⟩

/-- C1 (confirmed): for a signaling message with discriminant "answer"
whose SessionDescription payload parses and whose two description
applications succeed, the coordinator applies that payload first as the
local session description, then as the remote session description, and
afterwards transmits each candidate buffered in pendingCandidates in
insertion order. -/
theorem C1_answer_dual_apply_then_drain
    (m : ControlMsg) (o : PCOracle) (pending : List Nat) (sdp : Nat)
    (houter : m.outerOk = true) (htype : m.typeField = some MsgType.answer)
    (hsdp : m.sdpField = some sdp)
    (hl : o.setLocalOk = true) (hr : o.setRemoteOk = true) :
    (controlStep m o pending).1 =
      Effect.applyLocal sdp :: Effect.applyRemote sdp ::
        pending.map Effect.sendCandidateMsg := by
  simp [controlStep, houter, htype, hsdp, handleRemoteAnswer, hl, hr]

/-- Witness for C1 at a concrete message, oracle and two-element
buffer. -/
theorem C1_witness :
    (controlStep ⟨true, some MsgType.answer, some 7, none⟩
        ⟨true, true, true, none, true⟩ [1, 2]).1 =
      Effect.applyLocal 7 :: Effect.applyRemote 7 ::
        ([1, 2] : List Nat).map Effect.sendCandidateMsg :=
  C1_answer_dual_apply_then_drain _ _ _ 7 rfl rfl rfl rfl rfl

/-- C3 counterexample: after one fully successful "answer" the pending
buffer still holds both candidates — the drain does not clear the set —
and a run processing two successful "answer" messages transmits
candidate 1 twice, refuting \"each buffered candidate is transmitted
exactly once over the whole run even if multiple answer messages are
processed\". -/
theorem C3_counterexample :
    (controlStep ⟨true, some MsgType.answer, some 7, none⟩
        ⟨true, true, true, none, true⟩ [1, 2]).2.1 = [1, 2] ∧
    (runControl
        [(⟨true, some MsgType.answer, some 7, none⟩, ⟨true, true, true, none, true⟩),
         (⟨true, some MsgType.answer, some 7, none⟩, ⟨true, true, true, none, true⟩)]
        [1, 2]).1.count (Effect.sendCandidateMsg 1) = 2 :=
  ⟨rfl, rfl⟩

/-- Every element of a mapped candidate-transmission list is a
candidate transmission. -/
lemma filter_isSendCandidate_map (l : List Nat) :
    (l.map Effect.sendCandidateMsg).filter isSendCandidate =
      l.map Effect.sendCandidateMsg := by
  induction l with
  | nil => rfl
  | cons a t ih => simp [isSendCandidate, ih]

/-- C3 (amended): on a successful "answer" the drain transmits each
buffered entry exactly once, in insertion order, but does not clear the
set: the pending buffer is returned unchanged, so every later successful
"answer" retransmits its entries; exactly-once over the whole run holds
only when at most one "answer" application succeeds. -/
theorem C3_drain_in_order_without_clear
    (m : ControlMsg) (o : PCOracle) (pending : List Nat) (sdp : Nat)
    (houter : m.outerOk = true) (htype : m.typeField = some MsgType.answer)
    (hsdp : m.sdpField = some sdp)
    (hl : o.setLocalOk = true) (hr : o.setRemoteOk = true) :
    (controlStep m o pending).1.filter isSendCandidate =
      pending.map Effect.sendCandidateMsg ∧
    (controlStep m o pending).2.1 = pending := by
  constructor
  · simp [controlStep, houter, htype, hsdp, handleRemoteAnswer, hl, hr,
      isSendCandidate, filter_isSendCandidate_map]
  · simp [controlStep, houter, htype, hsdp, handleRemoteAnswer, hl, hr]

/-- Witness for C3's amended statement at a concrete message and
buffer. -/
theorem C3_witness :
    (controlStep ⟨true, some MsgType.answer, some 7, none⟩
        ⟨true, true, true, none, true⟩ [1, 2]).1.filter isSendCandidate =
      ([1, 2] : List Nat).map Effect.sendCandidateMsg ∧
    (controlStep ⟨true, some MsgType.answer, some 7, none⟩
        ⟨true, true, true, none, true⟩ [1, 2]).2.1 = [1, 2] :=
  C3_drain_in_order_without_clear _ _ _ 7 rfl rfl rfl rfl rfl

/-- C4 (code bug): a message whose outer JSON parses with discriminant
"offer" but whose SessionDescription payload is malformed makes
controlStep exit the whole control loop (the `return` at main.go:230),
so a following well-formed "iceCandidate" message — which alone would be
processed into an AddICECandidate call — is never handled.  The claim
(and the spec, main.go's sibling arms, and the flag-style error handling
everywhere else in the loop) require the loop to continue with the next
message. -/
theorem C4_malformed_offer_exits_loop :
    (controlStep ⟨true, some MsgType.offer, none, none⟩
        ⟨true, true, true, some 5, true⟩ []).2.2 = LoopOutcome.exitLoop ∧
    (runControl
        [(⟨true, some MsgType.offer, none, none⟩, ⟨true, true, true, some 5, true⟩),
         (⟨true, some MsgType.iceCandidate, none, some 3⟩,
          ⟨true, true, true, some 5, true⟩)] []).1 = [] ∧
    (controlStep ⟨true, some MsgType.iceCandidate, none, some 3⟩
        ⟨true, true, true, some 5, true⟩ []).1 = [Effect.addRemoteCandidate 3] :=
  ⟨rfl, rfl, rfl⟩

/-- C5 counterexample: a remote "offer" is processed, CreateAnswer
succeeds with answer 5, but applying that answer as the local description
fails; local-answer synthesis has therefore failed, yet the coordinator
still sends the outbound "answer" message, refuting \"produces no
outbound message when local-answer synthesis fails\". -/
theorem C5_counterexample :
    (controlStep ⟨true, some MsgType.offer, some 9, none⟩
        ⟨true, true, true, some 5, false⟩ []).1 =
      [Effect.applyRemote 9, Effect.sendAnswerMsg 5] := rfl

/-- C5 (amended): processing a remote "offer" with a well-formed
payload produces exactly one outbound message exactly when CreateAnswer
succeeds — even if applying the created answer as the local description
fails, since that failure is only logged and the error variable is
overwritten — and produces no outbound message only when CreateAnswer
itself fails. -/
theorem C5_answer_sent_iff_create_succeeds
    (m : ControlMsg) (o : PCOracle) (pending : List Nat) (sdp : Nat)
    (houter : m.outerOk = true) (htype : m.typeField = some MsgType.offer)
    (hsdp : m.sdpField = some sdp) :
    (controlStep m o pending).1.countP isOutboundMsg =
      (match o.createAnswerRes with
       | some _ => 1
       | none => 0) := by
  rcases o with ⟨sl, sr, ac, car, asl⟩
  rcases car with _ | a <;> cases sr <;> cases asl <;>
    simp [controlStep, houter, htype, hsdp, sendAnswer, createAnswer, isOutboundMsg]

/-- Witness for C5's amended statement: a fully successful offer
handling produces exactly one outbound message. -/
theorem C5_witness :
    (controlStep ⟨true, some MsgType.offer, some 9, none⟩
        ⟨true, true, true, some 5, true⟩ []).1.countP isOutboundMsg = 1 :=
  C5_answer_sent_iff_create_succeeds _ _ _ 9 rfl rfl rfl

/-- C6 (confirmed): for a local-candidate-discovered event carrying a
non-null candidate, the candidate is appended to pendingCandidates and
not transmitted when the remote description is absent, and transmitted
immediately without touching the buffer when the remote description is
present; hence an entry is appended only while the remote description is
absent. -/
theorem C6_buffer_iff_remote_absent
    (cand : Option Nat) (pending : List Nat) (c : Nat) (hc : cand = some c) :
    onICECandidate false cand pending = (pending ++ [c], []) ∧
    onICECandidate true cand pending = (pending, [Effect.sendCandidateMsg c]) := by
  subst hc
  exact ⟨rfl, rfl⟩

/-- Witness for C6 at a concrete candidate and buffer. -/
theorem C6_witness :
    onICECandidate false (some 4) [8] = ([8, 4], []) ∧
    onICECandidate true (some 4) [8] = ([8], [Effect.sendCandidateMsg 4]) :=
  C6_buffer_iff_remote_absent (some 4) [8] 4 rfl

/-- C7 counterexample: a write failure other than connection-refused
panics the relay iteration, and because an unrecovered Go panic
terminates the entire process, the other media kind's relay loop is not
left running — refuting \"terminates that media kind's relay loop only,
leaving the other kind's loop running\". -/
theorem C7_counterexample :
    relayStep ⟨true, true, true, WriteRes.otherErr⟩ = StepRes.panicked ∧
    otherKindStillRunning (relayStep ⟨true, true, true, WriteRes.otherErr⟩) = false :=
  ⟨rfl, rfl⟩

/-- C7 (amended): a connection-refused write failure never terminates
the relay loop (the next frame is read); a media-source read failure, a
header decode failure, a re-encode failure, or any other write failure
panics, which terminates that relay loop — and, since the panic is
unrecovered, the whole process, so the other kind's relay loop stops as
well. -/
theorem C7_relay_fatality_policy (r : RelayInput) :
    (r.readOk = true → r.unmarshalOk = true → r.marshalOk = true →
      r.writeRes = WriteRes.connRefused → relayStep r = StepRes.next) ∧
    (r.readOk = false → relayStep r = StepRes.panicked) ∧
    (r.unmarshalOk = false → r.readOk = true → relayStep r = StepRes.panicked) ∧
    (r.marshalOk = false → r.readOk = true → r.unmarshalOk = true →
      relayStep r = StepRes.panicked) ∧
    (r.writeRes = WriteRes.otherErr → r.readOk = true → r.unmarshalOk = true →
      r.marshalOk = true → relayStep r = StepRes.panicked) ∧
    (relayStep r = StepRes.panicked → otherKindStillRunning (relayStep r) = false) := by
  rcases r with ⟨a, b, c, w⟩
  cases a <;> cases b <;> cases c <;> cases w <;>
    simp [relayStep, otherKindStillRunning]

/-- Witness for C7's amended statement: a connection-refused write
leaves the loop running. -/
theorem C7_witness :
    relayStep ⟨true, true, true, WriteRes.connRefused⟩ = StepRes.next :=
  (C7_relay_fatality_policy ⟨true, true, true, WriteRes.connRefused⟩).1 rfl rfl rfl rfl

/-- C8 (code bug): with RTCPIntervalMs configured to 500 the feedback
ticker still fires every 2000 ms — the flag is declared with
documentation saying it controls this interval but is never read, the
period being the literal `time.Millisecond * 2000` — while the PLI/REMB
enable flags and the configured REMB bitrate are honoured on each
tick. -/
theorem C8_interval_hardcoded :
    tickerPeriodMs ⟨500, true, true, 400000000⟩ = 2000 ∧
    (500 : Nat) ≠ 2000 ∧
    rtcpPerTick ⟨500, true, true, 400000000⟩ 77 =
      [Feedback.pli 77, Feedback.remb 400000000 77] :=
  ⟨rfl, by decide, rfl⟩

/-- C9 counterexample: an interleaving allowed by the unsynchronized
source — candidate 7's remote-description check runs before the answer's
drain, its append after — leaves candidate 7 buffered and never
transmitted even though the remote description is set and the drain
already ran.  This refutes the claim that the accesses are serialized by
mutual exclusion (the source guards the shared slice with nothing) and
that no interleaving of Append and Drain loses a candidate. -/
theorem C9_counterexample :
    (raceRun raceInit
        [RaceAction.checkRemote 7, RaceAction.answer, RaceAction.act 7]).remoteSet
        = true ∧
    (raceRun raceInit
        [RaceAction.checkRemote 7, RaceAction.answer, RaceAction.act 7]).pending
        = [7] ∧
    (raceRun raceInit
        [RaceAction.checkRemote 7, RaceAction.answer, RaceAction.act 7]).sent = [] :=
  ⟨rfl, rfl, rfl⟩

/-- Running a concatenated schedule is running its parts in
sequence. -/
lemma raceRun_append (s : RaceState) (a b : List RaceAction) :
    raceRun s (a ++ b) = raceRun (raceRun s a) b := by
  simp [raceRun, List.foldl_append]

/-- While the remote description stays absent, atomically executed
discovery callbacks append their candidates in discovery order and send
nothing. -/
lemma discoverAll_run (cs : List Nat) :
    ∀ s : RaceState, s.remoteSet = false →
      (raceRun s (discoverAll cs)).pending = s.pending ++ cs ∧
      (raceRun s (discoverAll cs)).sent = s.sent ∧
      (raceRun s (discoverAll cs)).remoteSet = false := by
  induction cs with
  | nil => intro s h; simp [discoverAll, raceRun, h]
  | cons c t ih =>
      intro s h
      have hstep : raceRun s (discoverAll (c :: t)) =
          raceRun (raceStep (raceStep s (RaceAction.checkRemote c)) (RaceAction.act c))
            (discoverAll t) := by
        simp [discoverAll, atomicDiscover, raceRun]
      have h1 : raceStep s (RaceAction.checkRemote c) =
          { s with reads := (c, false) :: s.reads } := by
        simp [raceStep, h]
      have h2 : raceStep { s with reads := (c, false) :: s.reads } (RaceAction.act c) =
          { s with reads := (c, false) :: s.reads, pending := s.pending ++ [c] } := by
        simp [raceStep, List.lookup]
      rw [hstep, h1, h2]
      obtain ⟨hp, hs, hr⟩ :=
        ih { s with reads := (c, false) :: s.reads, pending := s.pending ++ [c] } h
      refine ⟨?_, hs, hr⟩
      rw [hp]
      simp

/-- C9 (amended): the source serializes nothing — the shared
pendingCandidates slice has no mutex — and an interleaving that splits a
callback's check from its append across the drain loses a candidate.
When each discovery callback does run without an interleaved drain, all
candidates buffered before the answer are transmitted by the drain
exactly once, in discovery order. -/
theorem C9_unsynchronized_discovery_drain (cs : List Nat) :
    (raceRun raceInit (discoverAll cs ++ [RaceAction.answer])).sent = cs := by
  rw [raceRun_append]
  obtain ⟨hp, hs, hr⟩ := discoverAll_run cs raceInit rfl
  rw [show raceRun (raceRun raceInit (discoverAll cs)) [RaceAction.answer] =
      raceStep (raceRun raceInit (discoverAll cs)) RaceAction.answer from rfl]
  simp only [raceStep]
  rw [hs, hp]
  simp [raceInit]

end Bridge
